import Mathlib

/-!
# Trainstream backend — verified shallow embedding

Shallow embedding of the core logic of the `trainstream-backend` repository:
the course-reference allocator and the partial-update merge policy of
`app/api/courses.py`, `app/api/course_templates.py`, `app/api/users.py` and
`app/api/participants.py`, together with the database-level create/update
operations they drive.

Modelling conventions:
* Python `str` is modelled as `List Char` (`Str`), so that structural
  recursion and list lemmas apply directly.
* SQLite tables are modelled as lists of row structures; `SELECT ... WHERE
  id = ?` + `fetchone` is `List.find?`, `UPDATE ... WHERE id = ?` maps over
  the rows touching those with a matching id, and `INSERT` appends a row
  whose fresh id (`cur.lastrowid`) is passed in as an argument.
* Python truthiness on optional strings/ints (`x or d`, `if x:`) is made
  explicit by the `py*` helpers below.
* `int(s)` is modelled by `pyInt`: surrounding whitespace stripped, an
  optional sign, then a non-empty run of ASCII digits.  (Python also accepts
  underscore separators and non-ASCII digits; no claim depends on those.)
* Python `str.isalnum` / `str.upper` / `str.strip` are modelled by the ASCII
  `Char.isAlphanum` / `Char.toUpper` / `Char.isWhitespace`; every literal a
  claim mentions is covered by the ASCII behaviour.
-/

namespace Trainstream

abbrev Str := List Char

/-- Python truthiness of an `Optional[str]`: `None` and `""` are falsy. -/
def strTruthy : Option Str → Bool
  | none => false
  | some s => !s.isEmpty

/-- Python `x or d` where `x : Optional[str]` and `d : str`. -/
def pyOrStr (x : Option Str) (d : Str) : Str :=
  match x with
  | none => d
  | some s => if s.isEmpty then d else s

/-- Python `x or d` where both operands are `Optional[str]`. -/
def pyOrOptStr (x d : Option Str) : Option Str :=
  match x with
  | none => d
  | some s => if s.isEmpty then d else some s

/-- Python `x or d` where `x : Optional[int]` and `d : int` (0 is falsy). -/
def pyOrInt (x : Option Int) (d : Int) : Int :=
  match x with
  | none => d
  | some v => if v = 0 then d else v

/-- Python `s or d` where both operands are `str` (`"" or d = d`). -/
def pyOrStrStr (s d : Str) : Str :=
  if s.isEmpty then d else s

/-- Python `str.strip()`: drop whitespace from both ends. -/
def pyStrip (s : Str) : Str :=
  (s.dropWhile Char.isWhitespace).reverse.dropWhile Char.isWhitespace |>.reverse

/-- A non-empty run of ASCII digits, read as a natural number. -/
def parseDigits (s : Str) : Option Nat :=
  if s.isEmpty then none
  else if s.all Char.isDigit then
    some (s.foldl (fun acc c => acc * 10 + (c.toNat - 48)) 0)
  else none

/-- Python `int(s)` on a string: strip whitespace, optional sign, digits. -/
def pyInt (s : Str) : Option Int :=
  match pyStrip s with
  | [] => none
  | c :: rest =>
    if c = '+' then (parseDigits rest).map Int.ofNat
    else if c = '-' then (parseDigits rest).map fun n => -(n : Int)
    else (parseDigits (c :: rest)).map Int.ofNat

/-- Python `s.split("-")` (single-character separator). -/
def splitOnDash : Str → List Str
  | [] => [[]]
  | c :: cs =>
    match splitOnDash cs with
    | [] => [[]]
    | p :: ps => if c = '-' then [] :: p :: ps else (c :: p) :: ps

/-- From `courses.py`, `_get_template_shortname`: keep alphanumeric characters,
upper-case the rest.  Mirrors
`"".join(ch for ch in template_name if ch.isalnum()).upper()`. -/
def _get_template_shortname (template_name : Str) : Str :=
  ((template_name.filter fun ch => ch.isAlphanum).map Char.toUpper)

/-- The SQL `LIKE '%-<year>-%'` filter of `_get_next_cohort_number`: the ref
contains the literal substring `-<year>-` (the year emitted by
`strftime("%Y")` holds no `LIKE` wildcard). -/
def likeYearPattern (year : Str) : Str := '-' :: (year ++ ['-'])

/-- From `courses.py`, the body of the scan loop in `_get_next_cohort_number`: skip
falsy refs, split on `-`, require at least 3 parts, and `int(parts[-1])`
under `try/except`. -/
def cohortOfRef (course_ref : Str) : Option Int :=
  if course_ref.isEmpty then none
  else
    let parts := splitOnDash course_ref
    if parts.length < 3 then none
    else pyInt (parts.getLastD [])

/-- From `courses.py`, `_get_next_cohort_number`: `refs` stands for the
`course_ref` column of the rows of this template; the SQL `WHERE ... LIKE`
filter, the scan loop, and `max(numbers) + 1 if numbers else 1`. -/
def _get_next_cohort_number (refs : List Str) (year : Str) : Int :=
  let rows := refs.filter fun r => decide (likeYearPattern year <:+: r)
  let numbers := rows.filterMap cohortOfRef
  match numbers.max? with
  | some m => m + 1
  | none => 1

/-! ## Course templates (`app/api/course_templates.py`) -/

/-- A row of the `course_templates` table, with the columns the API reads
and writes.  `cpd_hours` is a SQL `REAL`; the merge logic only tests it for
`NULL`-ness and copies it, so it is modelled by `Rat`. -/
structure TemplateRow where
  id : Int
  name : Str
  course_type : Option Str
  default_title : Option Str
  default_venue_id : Option Int
  default_trainer : Option Str
  default_capacity : Option Int
  course_title : Option Str
  provider_type : Option Str
  validity_months : Option Int
  cpd_hours : Option Rat
  deriving Repr, DecidableEq

/-- The `CourseTemplateBase` pydantic model (also the shape of
`CourseTemplateCreate` and of the merged `new` value in the update). -/
structure CourseTemplateBase where
  name : Str
  course_type : Option Str := none
  course_title : Option Str := none
  provider_type : Option Str := none
  default_capacity : Option Int := none
  validity_months : Option Int := none
  cpd_hours : Option Rat := none
  default_trainer : Option Str := none
  default_venue_id : Option Int := none
  deriving Repr, DecidableEq

/-- The `CourseTemplateUpdate` pydantic model: every field optional. -/
structure CourseTemplateUpdate where
  name : Option Str := none
  course_type : Option Str := none
  course_title : Option Str := none
  provider_type : Option Str := none
  default_capacity : Option Int := none
  validity_months : Option Int := none
  cpd_hours : Option Rat := none
  default_trainer : Option Str := none
  default_venue_id : Option Int := none
  deriving Repr, DecidableEq

/-- The `CourseTemplateOut` response model (id plus the base fields). -/
structure CourseTemplateOut extends CourseTemplateBase where
  id : Int
  deriving Repr, DecidableEq

/-- Mirrors `row_to_template`: `course_title` prefers the `course_title` column and
falls back to the legacy `default_title` column via Python `or`. -/
def row_to_template (row : TemplateRow) : CourseTemplateOut :=
  { id := row.id
    name := row.name
    course_type := row.course_type
    course_title := pyOrOptStr row.course_title row.default_title
    provider_type := row.provider_type
    default_capacity := row.default_capacity
    validity_months := row.validity_months
    cpd_hours := row.cpd_hours
    default_trainer := row.default_trainer
    default_venue_id := row.default_venue_id }

/-- The merged `new = CourseTemplateBase(...)` value built inside
`update_course_template`: string fields via Python `or` (truthiness),
numeric fields and `default_trainer` / `default_venue_id` via
`x if x is not None else current`. -/
def mergeTemplate (current : CourseTemplateOut) (updates : CourseTemplateUpdate) :
    CourseTemplateBase :=
  { name := pyOrStr updates.name current.name
    course_type := pyOrOptStr updates.course_type current.course_type
    course_title := pyOrOptStr updates.course_title current.course_title
    provider_type := pyOrOptStr updates.provider_type current.provider_type
    default_capacity := match updates.default_capacity with
      | some v => some v
      | none => current.default_capacity
    validity_months := match updates.validity_months with
      | some v => some v
      | none => current.validity_months
    cpd_hours := match updates.cpd_hours with
      | some v => some v
      | none => current.cpd_hours
    default_trainer := match updates.default_trainer with
      | some v => some v
      | none => current.default_trainer
    default_venue_id := match updates.default_venue_id with
      | some v => some v
      | none => current.default_venue_id }

/-- The `UPDATE course_templates SET ...` statement: writes the merged value
into the row; `default_title` and `course_title` both receive
`new.course_title`. -/
def applyTemplateUpdate (row : TemplateRow) (new : CourseTemplateBase) : TemplateRow :=
  { id := row.id
    name := new.name
    course_type := new.course_type
    default_title := new.course_title
    default_venue_id := new.default_venue_id
    default_trainer := new.default_trainer
    default_capacity := new.default_capacity
    course_title := new.course_title
    provider_type := new.provider_type
    validity_months := new.validity_months
    cpd_hours := new.cpd_hours }

/-- The row written by `INSERT INTO course_templates ...` in
`create_course_template`: `default_title` and `course_title` both receive
`body.course_title`; `newId` stands for `cur.lastrowid`. -/
def templateRowOfCreate (newId : Int) (body : CourseTemplateBase) : TemplateRow :=
  { id := newId
    name := body.name
    course_type := body.course_type
    default_title := body.course_title
    default_venue_id := body.default_venue_id
    default_trainer := body.default_trainer
    default_capacity := body.default_capacity
    course_title := body.course_title
    provider_type := body.provider_type
    validity_months := body.validity_months
    cpd_hours := body.cpd_hours }

/-- Endpoint `POST /course-templates`: insert the row, re-read it by id and answer
with `row_to_template`.  Returns the new table state and the HTTP outcome
(`Except` carries the error status code). -/
def create_course_template (db : List TemplateRow) (newId : Int)
    (body : CourseTemplateBase) : List TemplateRow × Except Nat CourseTemplateOut :=
  let db2 := db ++ [templateRowOfCreate newId body]
  (db2,
    match db2.find? fun r => r.id == newId with
    | none => .error 500
    | some row => .ok (row_to_template row))

/-- Endpoint `PUT /course-templates/{template_id}`: look the row up (404 when
absent, no write), merge, write the merged value back, re-read and answer.
The re-read failure (row vanished) surfaces as a 500 as in the code path
that would crash on a `None` row. -/
def update_course_template (db : List TemplateRow) (template_id : Int)
    (updates : CourseTemplateUpdate) : List TemplateRow × Except Nat CourseTemplateOut :=
  match db.find? fun r => r.id == template_id with
  | none => (db, .error 404)
  | some row =>
    let current := row_to_template row
    let new := mergeTemplate current updates
    let db2 := db.map fun r => if r.id == template_id then applyTemplateUpdate r new else r
    (db2,
      match db2.find? fun r => r.id == template_id with
      | none => .error 500
      | some updated_row => .ok (row_to_template updated_row))

/-! ## Users (`app/api/users.py`)

`password_hash` is written from `hash_password`, which draws a random salt;
the hash value itself is outside this deterministic model, so the row keeps
the name/role/email columns the update logic merges. -/

/-- The columns of a `users` row that the update endpoint merges and
returns.  Rows created through this API always carry real strings for the
name and role columns (see `create_user`), and `must_change_password` is
stored as an integer read back through `bool(...)`. -/
structure UserRow where
  id : Int
  first_name : Str
  surname : Str
  full_name : Str
  email : Option Str
  role : Str
  must_change_password : Bool
  deriving Repr, DecidableEq

/-- The `UserUpdate` pydantic model (sans `password`, see above). -/
structure UserUpdate where
  first_name : Option Str := none
  surname : Option Str := none
  full_name : Option Str := none
  role : Option Str := none
  email : Option Str := none
  must_change_password : Option Bool := none
  deriving Repr, DecidableEq

/-- The merge block of `update_user` (lines 182–200): names and role via
Python `or` (truthiness); `full_name` recomputed from the merged names when
either name was truthy-supplied and no truthy `full_name` was; `email` and
`must_change_password` via `x if x is not None else current`. -/
def mergeUser (current : UserRow) (updates : UserUpdate) : UserRow :=
  let new_first_name := pyOrStr updates.first_name current.first_name
  let new_surname := pyOrStr updates.surname current.surname
  let new_full_name :=
    if strTruthy updates.full_name then (updates.full_name).getD []
    else if strTruthy updates.first_name || strTruthy updates.surname then
      pyStrip (new_first_name ++ ' ' :: new_surname)
    else current.full_name
  { id := current.id
    first_name := new_first_name
    surname := new_surname
    full_name := new_full_name
    email := match updates.email with
      | some v => some v
      | none => current.email
    role := pyOrStr updates.role current.role
    must_change_password := match updates.must_change_password with
      | some v => v
      | none => current.must_change_password }

/-- Endpoint `PUT /users/{user_id}`: look up (404 when absent, no write), merge,
write back, re-read and answer with the updated row. -/
def update_user (db : List UserRow) (user_id : Int) (updates : UserUpdate) :
    List UserRow × Except Nat UserRow :=
  match db.find? fun r => r.id == user_id with
  | none => (db, .error 404)
  | some row =>
    let merged := mergeUser row updates
    let db2 := db.map fun r => if r.id == user_id then merged else r
    (db2,
      match db2.find? fun r => r.id == user_id with
      | none => .error 500
      | some updated_row => .ok updated_row)

/-! ## Participants (`app/api/participants.py`) -/

/-- A row of the `participants` table (the columns the API touches);
`joining_sent` is stored as an integer. -/
structure ParticipantRow where
  id : Int
  course_id : Int
  first_name : Str
  surname : Str
  contact_number : Option Str
  email : Option Str
  payment_status : Option Str
  notes : Option Str
  joining_sent : Int
  deriving Repr, DecidableEq

/-- The `ParticipantUpdate` pydantic model. -/
structure ParticipantUpdate where
  first_name : Option Str := none
  surname : Option Str := none
  contact_number : Option Str := none
  email : Option Str := none
  payment_status : Option Str := none
  notes : Option Str := none
  joining_sent : Option Bool := none
  deriving Repr, DecidableEq

/-- The `updated = {...}` dict of `update_participant` (lines 142–154):
every string field via `x if x is not None else current`, and the nested
conditional for `joining_sent` (`1` when truthy, else `0` when supplied,
else the current stored integer). -/
def mergeParticipant (current : ParticipantRow) (payload : ParticipantUpdate) :
    ParticipantRow :=
  { id := current.id
    course_id := current.course_id
    first_name := match payload.first_name with
      | some v => v
      | none => current.first_name
    surname := match payload.surname with
      | some v => v
      | none => current.surname
    contact_number := match payload.contact_number with
      | some v => some v
      | none => current.contact_number
    email := match payload.email with
      | some v => some v
      | none => current.email
    payment_status := match payload.payment_status with
      | some v => some v
      | none => current.payment_status
    notes := match payload.notes with
      | some v => some v
      | none => current.notes
    joining_sent := match payload.joining_sent with
      | some true => 1
      | some false => 0
      | none => current.joining_sent }

/-- Endpoint `PUT /participants/{participant_id}`: look up (404 when absent, no
write), merge, write back, re-read and answer. -/
def update_participant (db : List ParticipantRow) (participant_id : Int)
    (payload : ParticipantUpdate) : List ParticipantRow × Except Nat ParticipantRow :=
  match db.find? fun r => r.id == participant_id with
  | none => (db, .error 404)
  | some row =>
    let merged := mergeParticipant row payload
    let db2 := db.map fun r => if r.id == participant_id then merged else r
    (db2,
      match db2.find? fun r => r.id == participant_id with
      | none => .error 500
      | some updated_row => .ok updated_row)

/-! ## Decimal rendering and `{:03d}` formatting -/

/-- Decimal digits of a natural number, most significant first; the fuel is
always ample (`natToStr` passes `n + 1`, and the recursion depth is the
digit count). -/
def natToStrAux : Nat → Nat → Str
  | 0, _ => []
  | fuel + 1, n =>
    if n < 10 then [Nat.digitChar n]
    else natToStrAux fuel (n / 10) ++ [Nat.digitChar (n % 10)]

/-- Python `str(n)` for a natural number. -/
def natToStr (n : Nat) : Str := natToStrAux (n + 1) n

/-- Python `str(n)` for an `int`. -/
def intToStr (n : Int) : Str :=
  if n < 0 then '-' :: natToStr (-n).toNat else natToStr n.toNat

/-- Left-pad a string with `c` up to width `w` (no-op when already wider). -/
def leftPad (c : Char) (w : Nat) (s : Str) : Str :=
  List.replicate (w - s.length) c ++ s

/-- Python `f"{n:03d}"`: the decimal rendering zero-padded to width 3; the
sign of a negative number counts towards the width and precedes the
padding. -/
def fmt03 (n : Int) : Str :=
  if n < 0 then '-' :: leftPad '0' 2 (natToStr (-n).toNat)
  else leftPad '0' 3 (natToStr n.toNat)

/-! ## Courses (`app/api/courses.py`) -/

/-- A `datetime.date` value (`1 ≤ month ≤ 12` etc. are not needed by any
claim and are left to the caller). -/
structure PyDate where
  year : Nat
  month : Nat
  day : Nat
  deriving Repr, DecidableEq

/-- Mirrors `payload.course_date.strftime("%Y")`: the decimal year (unpadded, as on
glibc; every year a claim touches has 4 digits). -/
def strftimeY (d : PyDate) : Str := natToStr d.year

/-- Mirrors `payload.course_date.strftime("%Y-%m-%d")`. -/
def strftimeYMD (d : PyDate) : Str :=
  natToStr d.year ++ '-' :: leftPad '0' 2 (natToStr d.month)
    ++ '-' :: leftPad '0' 2 (natToStr d.day)

/-- A row of the `courses` table (the columns `create_course` writes). -/
structure CourseRow where
  id : Int
  course_ref : Str
  course_date : Str
  template_id : Int
  course_title : Str
  trainer : Str
  venue_id : Option Int
  capacity : Int
  status : Str
  deriving Repr, DecidableEq

/-- A row of the `venues` table (the columns the course read path joins). -/
structure VenueRow where
  id : Int
  name : Str
  deriving Repr, DecidableEq

/-- The `CourseCreate` pydantic payload with its defaults: omitted
`trainer` is the empty string, omitted `venue_id`/`capacity` are `None`,
omitted `status` is `"Planned"`. -/
structure CourseCreate where
  template_id : Int
  course_date : PyDate
  venue_id : Option Int := none
  trainer : Str := []
  capacity : Option Int := none
  status : Str := "Planned".toList
  deriving Repr, DecidableEq

/-- The `Course` response model. -/
structure Course where
  id : Int
  title : Str
  code : Str
  start_date : Str
  end_date : Option Str
  trainer_name : Str
  venue_name : Str
  status : Str
  deriving Repr, DecidableEq

/-- The tables `create_course` touches. -/
structure CoursesDB where
  templates : List TemplateRow
  courses : List CourseRow
  venues : List VenueRow
  deriving Repr, DecidableEq

/-- Models `COALESCE(v.name, '')` over the `LEFT JOIN venues` of the course read
path. -/
def lookupVenueName (venues : List VenueRow) (venue_id : Option Int) : Str :=
  match venue_id with
  | none => []
  | some vid =>
    match venues.find? fun v => v.id == vid with
    | some v => v.name
    | none => []

/-- Mirrors `_row_to_course` over the course `SELECT` (title/code/dates aliases,
`COALESCE` on trainer, venue name and status; rows written by this API
store real strings for trainer and status, so those coalesces are
identities). -/
def _row_to_course (venues : List VenueRow) (r : CourseRow) : Course :=
  { id := r.id
    title := r.course_title
    code := r.course_ref
    start_date := r.course_date
    end_date := some r.course_date
    trainer_name := r.trainer
    venue_name := lookupVenueName venues r.venue_id
    status := r.status }

/-- Endpoint `POST /courses` (`create_course`): template lookup (404 when absent, no
write), title/capacity defaulting, reference allocation, insert, re-read.
The SQL of `_get_next_cohort_number` filters by `template_id` and the
`LIKE` pattern; here the `template_id` filter selects the refs passed to
the helper and the `LIKE` filter lives inside it.  `newId` stands for
`cur.lastrowid`. -/
def create_course (db : CoursesDB) (newId : Int) (payload : CourseCreate) :
    CoursesDB × Except Nat Course :=
  match db.templates.find? fun t => t.id == payload.template_id with
  | none => (db, .error 404)
  | some tmpl =>
    let template_name := tmpl.name
    let course_title := pyOrStr tmpl.course_title template_name
    let default_capacity := pyOrInt tmpl.default_capacity 12
    let year_str := strftimeY payload.course_date
    let shortname := _get_template_shortname template_name
    let templateRefs :=
      (db.courses.filter fun c => c.template_id == payload.template_id).map
        fun c => c.course_ref
    let next_cohort := _get_next_cohort_number templateRefs year_str
    let course_ref := shortname ++ '-' :: year_str ++ '-' :: fmt03 next_cohort
    let capacity :=
      match payload.capacity with
      | some c => if c ≠ 0 ∧ 0 < c then c else default_capacity
      | none => default_capacity
    let status := pyOrStrStr payload.status ("Planned".toList)
    let course_date_str := strftimeYMD payload.course_date
    let newRow : CourseRow :=
      { id := newId
        course_ref := course_ref
        course_date := course_date_str
        template_id := payload.template_id
        course_title := course_title
        trainer := payload.trainer
        venue_id := payload.venue_id
        capacity := capacity
        status := status }
    let db2 : CoursesDB := { db with courses := db.courses ++ [newRow] }
    (db2,
      match db2.courses.find? fun c => c.id == newId with
      | none => .error 500
      | some row => .ok (_row_to_course db2.venues row))

/-! ## Concrete rows and payloads used to witness the theorems -/

/-- A one-template table row: id 1, name `Alpha`, default capacity 5. -/
def w4row : TemplateRow :=
  ⟨1, "Alpha".toList, none, none, none, none, some 5, none, none, none, none⟩

/-- A template row with distinct legacy `default_title` and
`course_title`. -/
def w9row : TemplateRow :=
  ⟨1, "Alpha".toList, none, some "Old".toList, none, none, none,
    some "New".toList, none, none, none⟩

/-- A user `Jane Doe`. -/
def w5user : UserRow :=
  ⟨7, "Jane".toList, "Doe".toList, "Jane Doe".toList, none, "admin".toList, false⟩

/-- A template whose `default_capacity` is present but zero. -/
def w3tmpl : TemplateRow :=
  ⟨1, "X".toList, none, none, none, none, some 0, none, none, none, none⟩

/-- A database holding only `w3tmpl`. -/
def w3db : CoursesDB := ⟨[w3tmpl], [], []⟩

/-- A create-course payload proposing capacity 0 against `w3tmpl`. -/
def w3p : CourseCreate :=
  { template_id := 1
    course_date := ⟨2024, 1, 15⟩
    capacity := some 0 }

/-- A plain template row for the course-reference witness. -/
def w7tmpl : TemplateRow :=
  ⟨1, "FREC 3 – Qualsafe".toList, none, none, none, none, none, none, none,
    none, none⟩

/-- A database holding only `w7tmpl` and no courses. -/
def w7db : CoursesDB := ⟨[w7tmpl], [], []⟩

/-- A minimal create-course payload for `w7db`. -/
def w7p : CourseCreate := { template_id := 1, course_date := ⟨2024, 1, 15⟩ }

/-- A create-course payload aimed at a missing template id. -/
def w8p : CourseCreate := { template_id := 1, course_date := ⟨2024, 1, 15⟩ }

/-- The empty courses database. -/
def w8db : CoursesDB := ⟨[], [], []⟩

/-- A template row that defines both a default trainer and a default
venue. -/
def w10tmpl : TemplateRow :=
  ⟨1, "Alpha".toList, none, none, some 9, some "Bob".toList, none, none, none,
    none, none⟩

/-- A database holding only `w10tmpl`. -/
def w10db : CoursesDB := ⟨[w10tmpl], [], []⟩

/-- A create-course payload naming its own trainer and venue. -/
def w10p : CourseCreate :=
  { template_id := 1
    course_date := ⟨2024, 1, 15⟩
    venue_id := some 3
    trainer := "Alice".toList }

/-! ## Spec-side definitions

These restate what the specification's words describe, independently of the
code path, so the theorems below can compare the two. -/

/-- Spec reading of the cohort scan: among the template's refs containing
the substring `-<year>-`, the final `-`-separated segment of each, when it
parses as an integer. -/
def specCollected (refs : List Str) (year : Str) : List Int :=
  (refs.filter fun r => decide (likeYearPattern year <:+: r)).filterMap
    fun r => pyInt ((splitOnDash r).getLastD [])

/-- Spec reading of the next cohort number: `max(collected) + 1`, or `1`
when nothing was collected. -/
def specNextCohort (refs : List Str) (year : Str) : Int :=
  match (specCollected refs year).max? with
  | some m => m + 1
  | none => 1

/-- Spec reading of the short-name derivation: drop every character that is
not a letter or digit, then upper-case the remainder. -/
def specShortname (name : Str) : Str :=
  (name.filter fun ch => ch.isAlphanum).map Char.toUpper

/-- Spec reading of the capacity default as the claim states it: the
proposed capacity when present and strictly positive; otherwise the
template's `default_capacity` whenever it is present; 12 only when it is
absent. -/
def specCapacityClaim (proposed : Option Int) (tmplDefault : Option Int) : Int :=
  match proposed with
  | some c =>
    if 0 < c then c
    else match tmplDefault with
      | some d => d
      | none => 12
  | none =>
    match tmplDefault with
    | some d => d
    | none => 12

/-- The capacity default as the code computes it: the claimed rule, except
that a stored `default_capacity` of 0 is falsy for `tmpl["default_capacity"]
or 12` and also falls back to 12. -/
def specCapacityAmended (proposed : Option Int) (tmplDefault : Option Int) : Int :=
  match proposed with
  | some c =>
    if 0 < c then c
    else match tmplDefault with
      | some d => if d = 0 then 12 else d
      | none => 12
  | none =>
    match tmplDefault with
    | some d => if d = 0 then 12 else d
    | none => 12

/-! ## Lemmas on the split/scan primitives -/

theorem splitOnDash_ne_nil (cs : Str) : splitOnDash cs ≠ [] := by
  induction cs with
  | nil => simp [splitOnDash]
  | cons c cs ih =>
    simp only [splitOnDash]
    cases h : splitOnDash cs with
    | nil => simp
    | cons p ps => by_cases hc : c = '-' <;> simp [hc]

theorem length_splitOnDash (cs : Str) :
    (splitOnDash cs).length = cs.count '-' + 1 := by
  induction cs with
  | nil => simp [splitOnDash]
  | cons c cs ih =>
    simp only [splitOnDash]
    cases h : splitOnDash cs with
    | nil => exact absurd h (splitOnDash_ne_nil cs)
    | cons p ps =>
      rw [h] at ih
      simp only [List.length_cons] at ih
      dsimp only
      by_cases hc : c = '-'
      · subst hc
        rw [if_pos rfl]
        simp only [List.length_cons, List.count_cons]
        simp only [beq_self_eq_true, if_true]
        omega
      · rw [if_neg hc]
        simp only [List.length_cons, List.count_cons]
        simp only [beq_iff_eq, hc, if_false]
        omega

theorem count_likeYearPattern (year : Str) :
    (likeYearPattern year).count '-' = year.count '-' + 2 := by
  simp [likeYearPattern, List.count_cons, List.count_append]

/-- A ref that passes the `LIKE '%-<year>-%'` filter has at least two
dashes, hence at least three `-`-separated parts and a non-empty body, so
the scan-loop guards of `cohortOfRef` cannot fire on it. -/
theorem cohortOfRef_of_like {year r : Str} (h : likeYearPattern year <:+: r) :
    cohortOfRef r = pyInt ((splitOnDash r).getLastD []) := by
  have hcount : 2 ≤ r.count '-' := by
    have hle := h.count_le '-'
    rw [count_likeYearPattern] at hle
    omega
  have hne : ¬r.isEmpty := by
    cases r with
    | nil => simp at hcount
    | cons a as => simp
  have hlen : ¬(splitOnDash r).length < 3 := by
    rw [length_splitOnDash]
    omega
  simp [cohortOfRef, hne, hlen]

/-! ## Claim theorems -/

/-- C1: for every template's ref set and target year, the next cohort
number computed by `_get_next_cohort_number` is `max(collected) + 1` where
`collected` holds the final `-`-separated segments (those parsing as
integers) of the refs containing `-<year>-`, and is `1` when nothing was
collected; refs whose final segment does not parse are skipped rather than
failing.  In particular, for refs `X-2024-001`, `X-2024-003`, `X-2024-abc`
the next cohort is 4. -/
theorem nextCohort_matches_spec :
    (∀ (refs : List Str) (year : Str),
      _get_next_cohort_number refs year = specNextCohort refs year) ∧
    _get_next_cohort_number
      ["X-2024-001".toList, "X-2024-003".toList, "X-2024-abc".toList]
      "2024".toList = 4 := by
  constructor
  · intro refs year
    have hlists :
        (refs.filter fun r => decide (likeYearPattern year <:+: r)).filterMap
            cohortOfRef = specCollected refs year := by
      unfold specCollected
      apply List.filterMap_congr
      intro r hr
      rw [List.mem_filter] at hr
      exact cohortOfRef_of_like (of_decide_eq_true hr.2)
    unfold _get_next_cohort_number specNextCohort
    simp only []
    rw [hlists]
  · decide

/-- C6: the derived short-name keeps exactly the alphanumeric characters of
the template name, upper-cased; `"FREC 3 – Qualsafe"` yields
`"FREC3QUALSAFE"`. -/
theorem shortname_matches_spec :
    (∀ name : Str, _get_template_shortname name = specShortname name) ∧
    _get_template_shortname "FREC 3 – Qualsafe".toList = "FREC3QUALSAFE".toList := by
  exact ⟨fun name => rfl, by decide⟩

/-- C4: on a course-template partial update, proposing the empty string for
`name` keeps the stored name column unchanged, while proposing
`default_capacity = 0` stores `0` — the string/numeric asymmetry on the
same operation.  `row` is the row the endpoint looks up, and `huniq` states
the primary-key property of `id`. -/
theorem templateUpdate_asymmetry (db : List TemplateRow) (tid : Int)
    (row : TemplateRow)
    (hfind : db.find? (fun r => r.id == tid) = some row)
    (huniq : ∀ r ∈ db, r.id = tid → r = row) :
    ((update_course_template db tid { name := some [] }).1.map fun r => r.name)
        = db.map (fun r => r.name) ∧
    ∀ r ∈ (update_course_template db tid { default_capacity := some 0 }).1,
      r.id = tid → r.default_capacity = some 0 := by
  constructor
  · unfold update_course_template
    rw [hfind]
    simp only [List.map_map]
    refine List.map_congr_left fun a ha => ?_
    by_cases hid : a.id = tid
    · have haeq : a = row := huniq a ha hid
      subst haeq
      rw [Function.comp_apply, if_pos (by simpa using hid)]
      rfl
    · rw [Function.comp_apply, if_neg (by simpa using hid)]
  · intro r hr hrid
    unfold update_course_template at hr
    rw [hfind] at hr
    simp only [List.mem_map] at hr
    obtain ⟨a, _, hfa⟩ := hr
    by_cases hid : a.id = tid
    · rw [if_pos (by simpa using hid)] at hfa
      subst hfa
      rfl
    · rw [if_neg (by simpa using hid)] at hfa
      subst hfa
      exact absurd hrid hid

/-- C9: every successful course-template create or update writes the same
merged `course_title` value into both the `default_title` and
`course_title` columns, so the invariant `default_title = course_title`
holds for the inserted row and for every row the update touched. -/
theorem template_writes_sync_default_title :
    (∀ (db : List TemplateRow) (newId : Int) (body : CourseTemplateBase),
      (create_course_template db newId body).1
          = db ++ [templateRowOfCreate newId body] ∧
      (templateRowOfCreate newId body).default_title
          = (templateRowOfCreate newId body).course_title) ∧
    (∀ (db db2 : List TemplateRow) (tid : Int) (upd : CourseTemplateUpdate)
        (out : CourseTemplateOut),
      update_course_template db tid upd = (db2, .ok out) →
      ∀ r ∈ db2, r.id = tid → r.default_title = r.course_title) := by
  constructor
  · intro db newId body
    exact ⟨rfl, rfl⟩
  · intro db db2 tid upd out h r hr hrid
    unfold update_course_template at h
    revert h
    cases hfind : db.find? fun a => a.id == tid with
    | none =>
      intro h
      exact Except.noConfusion (congrArg Prod.snd h)
    | some row =>
      intro h
      have hdb2 : db2 = db.map fun a => if a.id == tid then
          applyTemplateUpdate a (mergeTemplate (row_to_template row) upd) else a :=
        (congrArg Prod.fst h).symm
      subst hdb2
      rw [List.mem_map] at hr
      obtain ⟨a, _, hfa⟩ := hr
      by_cases hid : a.id = tid
      · rw [if_pos (by simpa using hid)] at hfa
        subst hfa
        rfl
      · rw [if_neg (by simpa using hid)] at hfa
        subst hfa
        exact absurd hrid hid

/-- C5: in the user update merge, when first name or surname is supplied
non-empty and no non-empty full name is, the merged full name is the merged
first name and merged surname joined by a single space and stripped; a
non-empty supplied full name wins outright. -/
theorem userUpdate_full_name_policy (current : UserRow) (u : UserUpdate) :
    ((strTruthy u.first_name || strTruthy u.surname) = true →
      strTruthy u.full_name = false →
      (mergeUser current u).full_name =
        pyStrip (pyOrStr u.first_name current.first_name
          ++ ' ' :: pyOrStr u.surname current.surname)) ∧
    (∀ s : Str, u.full_name = some s → s.isEmpty = false →
      (mergeUser current u).full_name = s) := by
  constructor
  · intro h1 h2
    unfold mergeUser
    simp only [h2, if_false, h1, if_true, Bool.false_eq_true]
  · intro s hs hne
    have ht : strTruthy (some s) = true := by simp [strTruthy, hne]
    simp only [mergeUser, hs]
    rw [if_pos ht]
    rfl

/-- C2, counterexample: on the participant update endpoint, supplying the
empty string for `first_name` does not leave the stored value unchanged —
it blanks the stored `"Alice"` to `""`. -/
theorem emptyString_blanks_participant_first_name :
    ((update_participant
        [{ id := 1
           course_id := 1
           first_name := "Alice".toList
           surname := "B".toList
           contact_number := none
           email := none
           payment_status := none
           notes := none
           joining_sent := 0 }]
        1 { first_name := some [] }).1.map fun r => r.first_name) = [[]] ∧
    "Alice".toList ≠ ([] : Str) := by
  exact ⟨rfl, by decide⟩

/-- C2 amended: the empty string is treated as absent only for the
truthiness-merged string fields — the template's `name`, `course_type`,
`course_title` and `provider_type`, and the user's `first_name`, `surname`,
`full_name` and `role`.  The participant's string fields, the user's
`email` and the template's `default_trainer` are merged by an
`is not None` test, so an empty string there is a requested update and
blanks the stored value. -/
theorem emptyString_merge_policy_by_field :
    (∀ current : CourseTemplateOut,
      mergeTemplate current
          { name := some []
            course_type := some []
            course_title := some []
            provider_type := some []
            default_trainer := some [] } =
        { name := current.name
          course_type := current.course_type
          course_title := current.course_title
          provider_type := current.provider_type
          default_capacity := current.default_capacity
          validity_months := current.validity_months
          cpd_hours := current.cpd_hours
          default_trainer := some []
          default_venue_id := current.default_venue_id }) ∧
    (∀ current : UserRow,
      mergeUser current
          { first_name := some []
            surname := some []
            full_name := some []
            role := some []
            email := some [] } =
        { current with email := some [] }) ∧
    (∀ current : ParticipantRow,
      mergeParticipant current
          { first_name := some []
            surname := some []
            contact_number := some []
            email := some []
            payment_status := some []
            notes := some [] } =
        { current with
          first_name := []
          surname := []
          contact_number := some []
          email := some []
          payment_status := some []
          notes := some [] }) := by
  refine ⟨fun current => rfl, fun current => ?_, fun current => rfl⟩
  unfold mergeUser
  rfl

/-- C3, counterexample: a template whose `default_capacity` is present but
equal to 0, with a request proposing capacity 0, stores capacity 12 — not
the template's default 0 that the claim requires. -/
theorem capacity_zero_default_counterexample :
    ((create_course
        { templates := [{ id := 1
                          name := "X".toList
                          course_type := none
                          default_title := none
                          default_venue_id := none
                          default_trainer := none
                          default_capacity := some 0
                          course_title := none
                          provider_type := none
                          validity_months := none
                          cpd_hours := none }]
          courses := []
          venues := [] }
        1
        { template_id := 1
          course_date := ⟨2024, 1, 15⟩
          capacity := some 0 }).1.courses.map fun c => c.capacity) = [12] ∧
    specCapacityClaim (some 0) (some 0) = 0 ∧ (12 : Int) ≠ 0 := by
  refine ⟨?_, rfl, by decide⟩
  rfl

/-- C3 amended: the stored capacity is the proposed capacity when present
and strictly positive; otherwise the template's `default_capacity` when
that is present and nonzero; and 12 when it is absent **or zero**.  A
request with capacity 0 thus stores the template default only when that
default is nonzero. -/
theorem capacity_default_amended (db : CoursesDB) (newId : Int)
    (p : CourseCreate) (tmpl : TemplateRow)
    (hfind : db.templates.find? (fun t => t.id == p.template_id) = some tmpl) :
    ∃ row : CourseRow,
      (create_course db newId p).1.courses = db.courses ++ [row] ∧
      row.capacity = specCapacityAmended p.capacity tmpl.default_capacity := by
  unfold create_course
  rw [hfind]
  refine ⟨_, rfl, ?_⟩
  simp only [specCapacityAmended, pyOrInt]
  cases p.capacity with
  | none =>
    dsimp only
    cases tmpl.default_capacity with
    | none => rfl
    | some d => rfl
  | some c =>
    dsimp only
    by_cases hc : 0 < c
    · rw [if_pos hc]
      have hcond : (c ≠ 0 ∧ 0 < c) := ⟨by omega, hc⟩
      rw [if_pos hcond]
    · rw [if_neg hc]
      have hcond : ¬(c ≠ 0 ∧ 0 < c) := by omega
      rw [if_neg hcond]
      cases tmpl.default_capacity with
      | none => rfl
      | some d => rfl

/-! ## Length of the decimal rendering, and padding facts -/

theorem natToStrAux_length_le :
    ∀ (fuel n k : Nat), n < fuel → n < 10 ^ k → 1 ≤ k →
      (natToStrAux fuel n).length ≤ k := by
  intro fuel
  induction fuel with
  | zero => intro n k h _ _; omega
  | succ fuel ih =>
    intro n k hn hk hk1
    simp only [natToStrAux]
    by_cases h10 : n < 10
    · rw [if_pos h10]
      simpa using hk1
    · rw [if_neg h10, List.length_append, List.length_singleton]
      have hk2 : 2 ≤ k := by
        by_contra hcon
        have hk1' : k = 1 := by omega
        subst hk1'
        rw [pow_one] at hk
        omega
      have hdiv : n / 10 < fuel := by omega
      have hpow : 10 ^ (k - 1) * 10 = 10 ^ k := by
        have hkk : k - 1 + 1 = k := by omega
        rw [← pow_succ, hkk]
      have hlt : n / 10 < 10 ^ (k - 1) := by
        rw [Nat.div_lt_iff_lt_mul (by norm_num), hpow]
        exact hk
      have := ih (n / 10) (k - 1) hdiv hlt (by omega)
      omega

theorem natToStrAux_length_ge :
    ∀ (fuel n k : Nat), n < fuel → 10 ^ k ≤ n →
      k + 1 ≤ (natToStrAux fuel n).length := by
  intro fuel
  induction fuel with
  | zero => intro n k h _; omega
  | succ fuel ih =>
    intro n k hn hk
    simp only [natToStrAux]
    by_cases h10 : n < 10
    · rw [if_pos h10]
      have hk0 : k = 0 := by
        by_contra hcon
        have h1k : 1 ≤ k := by omega
        have h1010 : 10 ≤ 10 ^ k := by
          calc (10 : Nat) = 10 ^ 1 := (pow_one 10).symm
          _ ≤ 10 ^ k := Nat.pow_le_pow_right (by norm_num) h1k
        omega
      subst hk0
      simp
    · rw [if_neg h10, List.length_append, List.length_singleton]
      cases k with
      | zero => omega
      | succ k2 =>
        have hdiv : n / 10 < fuel := by omega
        have hge : 10 ^ k2 ≤ n / 10 := by
          rw [Nat.le_div_iff_mul_le (by norm_num)]
          calc 10 ^ k2 * 10 = 10 ^ (k2 + 1) := by rw [pow_succ]
          _ ≤ n := hk
        have := ih (n / 10) k2 hdiv hge
        omega

theorem natToStr_length_le {n k : Nat} (hk : n < 10 ^ k) (hk1 : 1 ≤ k) :
    (natToStr n).length ≤ k :=
  natToStrAux_length_le (n + 1) n k (Nat.lt_succ_self n) hk hk1

theorem natToStr_length_ge {n k : Nat} (hk : 10 ^ k ≤ n) :
    k + 1 ≤ (natToStr n).length :=
  natToStrAux_length_ge (n + 1) n k (Nat.lt_succ_self n) hk

theorem fmt03_length_of_le {n : Int} (h1 : 1 ≤ n) (h2 : n ≤ 999) :
    (fmt03 n).length = 3 := by
  unfold fmt03
  rw [if_neg (by omega)]
  rw [leftPad, List.length_append, List.length_replicate]
  have hlt : n.toNat < 10 ^ 3 := by
    have : n.toNat ≤ 999 := by omega
    calc n.toNat ≤ 999 := this
    _ < 10 ^ 3 := by norm_num
  have := natToStr_length_le hlt (by norm_num)
  omega

theorem fmt03_no_truncation {n : Int} (h : 999 < n) :
    fmt03 n = intToStr n ∧ 4 ≤ (fmt03 n).length := by
  unfold fmt03 intToStr
  rw [if_neg (by omega), if_neg (by omega)]
  have hge : 4 ≤ (natToStr n.toNat).length := by
    have h1000 : 10 ^ 3 ≤ n.toNat := by
      have : 1000 ≤ n.toNat := by omega
      calc (10 : Nat) ^ 3 = 1000 := by norm_num
      _ ≤ n.toNat := this
    have := natToStr_length_ge h1000
    omega
  constructor
  · rw [leftPad]
    have hz : 3 - (natToStr n.toNat).length = 0 := by omega
    rw [hz]
    rfl
  · rw [leftPad, List.length_append, List.length_replicate]
    omega

/-! ## The allocated cohort number is always at least 1 -/

theorem pyStrip_subset (s : Str) : ∀ c ∈ pyStrip s, c ∈ s := by
  intro c hc
  unfold pyStrip at hc
  rw [List.mem_reverse] at hc
  have h1 := (List.dropWhile_sublist Char.isWhitespace).subset hc
  rw [List.mem_reverse] at h1
  exact (List.dropWhile_sublist Char.isWhitespace).subset h1

/-- On a string with no dash, Python `int` never yields a negative value
(the only source of negativity is a leading `-`). -/
theorem pyInt_nonneg {s : Str} (hnd : '-' ∉ s) {v : Int} (hv : pyInt s = some v) :
    0 ≤ v := by
  unfold pyInt at hv
  cases hstrip : pyStrip s with
  | nil =>
    rw [hstrip] at hv
    cases hv
  | cons c cs =>
    rw [hstrip] at hv
    dsimp only at hv
    by_cases hplus : c = '+'
    · rw [if_pos hplus] at hv
      cases hpd : parseDigits cs with
      | none => rw [hpd] at hv; cases hv
      | some m =>
        rw [hpd] at hv
        simp only [Option.map_some'] at hv
        cases hv
        exact Int.ofNat_nonneg m
    · rw [if_neg hplus] at hv
      by_cases hminus : c = '-'
      · exfalso
        apply hnd
        apply pyStrip_subset s
        rw [hstrip, hminus]
        exact List.mem_cons_self _ _
      · rw [if_neg hminus] at hv
        cases hpd : parseDigits (c :: cs) with
        | none => rw [hpd] at hv; cases hv
        | some m =>
          rw [hpd] at hv
          simp only [Option.map_some'] at hv
          cases hv
          exact Int.ofNat_nonneg m

theorem splitOnDash_no_dash (cs : Str) : ∀ p ∈ splitOnDash cs, '-' ∉ p := by
  induction cs with
  | nil =>
    intro p hp
    simp only [splitOnDash, List.mem_singleton] at hp
    subst hp
    simp
  | cons c cs ih =>
    intro p hp
    simp only [splitOnDash] at hp
    revert hp
    cases h : splitOnDash cs with
    | nil => exact absurd h (splitOnDash_ne_nil cs)
    | cons q qs =>
      intro hp
      dsimp only at hp
      by_cases hc : c = '-'
      · rw [if_pos hc] at hp
        rcases List.mem_cons.mp hp with hq | hq
        · subst hq; simp
        · exact ih p (h ▸ hq)
      · rw [if_neg hc] at hp
        rcases List.mem_cons.mp hp with hq | hq
        · subst hq
          intro hmem
          rcases List.mem_cons.mp hmem with he | he
          · exact hc he.symm
          · exact ih q (h ▸ List.mem_cons_self q qs) he
        · exact ih p (h ▸ List.mem_cons_of_mem q hq)

theorem mem_getLastD {α : Type} :
    ∀ (l : List α) (d : α), l ≠ [] → l.getLastD d ∈ l := by
  intro l
  induction l with
  | nil => intro d h; exact absurd rfl h
  | cons a as ih =>
    intro d _
    rw [List.getLastD_cons]
    cases has : as with
    | nil => simp [List.getLastD]
    | cons b bs =>
      have hmem := ih a (by simp [has])
      exact List.mem_cons_of_mem a (has ▸ hmem)

/-- Whatever the existing refs are, the scan collects only non-negative
cohort numbers (a final `-`-segment holds no dash), so the allocated next
cohort is at least 1. -/
theorem next_cohort_pos (refs : List Str) (year : Str) :
    1 ≤ _get_next_cohort_number refs year := by
  unfold _get_next_cohort_number
  simp only []
  cases hmax : (List.filterMap cohortOfRef
      (List.filter (fun r => decide (likeYearPattern year <:+: r)) refs)).max? with
  | none => dsimp only; omega
  | some m =>
    dsimp only
    have hm := List.max?_mem max_choice hmax
    rw [List.mem_filterMap] at hm
    obtain ⟨r, _, hco⟩ := hm
    have hmnn : 0 ≤ m := by
      unfold cohortOfRef at hco
      by_cases h1 : r.isEmpty
      · rw [if_pos h1] at hco; cases hco
      · rw [if_neg h1] at hco
        dsimp only at hco
        by_cases h2 : (splitOnDash r).length < 3
        · rw [if_pos h2] at hco; cases hco
        · rw [if_neg h2] at hco
          have hseg : (splitOnDash r).getLastD [] ∈ splitOnDash r :=
            mem_getLastD (splitOnDash r) [] (splitOnDash_ne_nil r)
          exact pyInt_nonneg (splitOnDash_no_dash r _ hseg) hco
    omega

/-- C7: every course_ref assigned at creation is
`{shortname}-{year}-{cohort:03d}`; the allocated cohort is always at least
1; for cohorts between 1 and 999 the padding gives exactly 3 digits, while
a cohort above 999 renders its full decimal form without truncation or
wraparound; and with no prior instance of the template in the target year
the first allocated suffix is `-<year>-001` (cohort 1, rendered `001`). -/
theorem courseRef_format :
    (∀ (refs : List Str) (year : Str), 1 ≤ _get_next_cohort_number refs year) ∧
    (∀ n : Int, 1 ≤ n → n ≤ 999 → (fmt03 n).length = 3) ∧
    (∀ n : Int, 999 < n → fmt03 n = intToStr n ∧ 4 ≤ (fmt03 n).length) ∧
    (∀ (db : CoursesDB) (newId : Int) (p : CourseCreate) (tmpl : TemplateRow),
      db.templates.find? (fun t => t.id == p.template_id) = some tmpl →
      ∃ row : CourseRow,
        (create_course db newId p).1.courses = db.courses ++ [row] ∧
        row.course_ref =
          _get_template_shortname tmpl.name ++ '-' :: strftimeY p.course_date
            ++ '-' :: fmt03 (_get_next_cohort_number
                ((db.courses.filter fun c => c.template_id == p.template_id).map
                  fun c => c.course_ref)
                (strftimeY p.course_date))) ∧
    (∀ (refs : List Str) (year : Str),
      (∀ r ∈ refs, ¬likeYearPattern year <:+: r) →
      _get_next_cohort_number refs year = 1) ∧
    fmt03 1 = "001".toList := by
  refine ⟨next_cohort_pos, ?_, ?_, ?_, ?_, by decide⟩
  · intro n h1 h2
    exact fmt03_length_of_le h1 h2
  · intro n h
    exact fmt03_no_truncation h
  · intro db newId p tmpl hfind
    unfold create_course
    rw [hfind]
    exact ⟨_, rfl, rfl⟩
  · intro refs year h
    unfold _get_next_cohort_number
    have hfil : refs.filter (fun r => decide (likeYearPattern year <:+: r)) = [] := by
      rw [List.filter_eq_nil_iff]
      intro r hr
      simpa using h r hr
    rw [hfil]
    rfl

/-- C8: a create-course request whose template id resolves to no template,
and a partial-update request (template, user or participant) whose entity
id resolves to no row, answer 404 and leave the stored state exactly as it
was. -/
theorem notFound_404_no_write :
    (∀ (db : CoursesDB) (newId : Int) (p : CourseCreate),
      db.templates.find? (fun t => t.id == p.template_id) = none →
      create_course db newId p = (db, .error 404)) ∧
    (∀ (db : List TemplateRow) (tid : Int) (upd : CourseTemplateUpdate),
      db.find? (fun r => r.id == tid) = none →
      update_course_template db tid upd = (db, .error 404)) ∧
    (∀ (db : List UserRow) (uid : Int) (upd : UserUpdate),
      db.find? (fun r => r.id == uid) = none →
      update_user db uid upd = (db, .error 404)) ∧
    (∀ (db : List ParticipantRow) (pid : Int) (upd : ParticipantUpdate),
      db.find? (fun r => r.id == pid) = none →
      update_participant db pid upd = (db, .error 404)) := by
  refine ⟨?_, ?_, ?_, ?_⟩
  · intro db newId p h
    unfold create_course
    rw [h]
  · intro db tid upd h
    unfold update_course_template
    rw [h]
  · intro db uid upd h
    unfold update_user
    rw [h]
  · intro db pid upd h
    unfold update_participant
    rw [h]

/-- C10: the stored course row takes its trainer and venue from the request
alone — `trainer` is exactly the payload's trainer (the payload default is
the empty string) and `venue_id` exactly the payload's venue id — and the
template's `default_trainer` / `default_venue_id` are never consulted:
overwriting them in every template row changes neither the inserted rows
nor the response. -/
theorem createCourse_ignores_template_defaults :
    (∀ (db : CoursesDB) (newId : Int) (p : CourseCreate) (tmpl : TemplateRow),
      db.templates.find? (fun t => t.id == p.template_id) = some tmpl →
      ∃ row : CourseRow,
        (create_course db newId p).1.courses = db.courses ++ [row] ∧
        row.trainer = p.trainer ∧ row.venue_id = p.venue_id) ∧
    (∀ (db : CoursesDB) (newId : Int) (p : CourseCreate)
        (dt : Option Str) (dv : Option Int),
      (create_course
          { db with templates := db.templates.map fun t =>
              { t with default_trainer := dt, default_venue_id := dv } }
          newId p).1.courses = (create_course db newId p).1.courses ∧
      (create_course
          { db with templates := db.templates.map fun t =>
              { t with default_trainer := dt, default_venue_id := dv } }
          newId p).2 = (create_course db newId p).2) := by
  constructor
  · intro db newId p tmpl hfind
    unfold create_course
    rw [hfind]
    exact ⟨_, rfl, rfl, rfl⟩
  · intro db newId p dt dv
    unfold create_course
    rw [List.find?_map]
    have hpred : ((fun t : TemplateRow => t.id == p.template_id) ∘ fun t =>
        { t with default_trainer := dt, default_venue_id := dv }) =
        fun t : TemplateRow => t.id == p.template_id := rfl
    rw [hpred]
    cases db.templates.find? fun t => t.id == p.template_id with
    | none => exact ⟨rfl, rfl⟩
    | some tmpl => exact ⟨rfl, rfl⟩

/-! ## Witnesses: the hypotheses of the claim theorems are satisfiable -/

/-- Witness for `templateUpdate_asymmetry` on a concrete one-row table. -/
theorem templateUpdate_asymmetry_witness :
    ([w4row].find? (fun r => r.id == 1) = some w4row) ∧
    ((update_course_template [w4row] 1 { name := some [] }).1.map fun r => r.name)
        = [w4row].map (fun r => r.name) ∧
    (∀ r ∈ (update_course_template [w4row] 1 { default_capacity := some 0 }).1,
      r.id = 1 → r.default_capacity = some 0) := by
  refine ⟨rfl, ?_, ?_⟩
  · exact (templateUpdate_asymmetry [w4row] 1 w4row rfl (by decide)).1
  · exact (templateUpdate_asymmetry [w4row] 1 w4row rfl (by decide)).2

/-- Witness for `template_writes_sync_default_title` on a concrete create
and a concrete successful update. -/
theorem template_writes_sync_default_title_witness :
    ((create_course_template [] 1 { name := "Alpha".toList }).1
        = [templateRowOfCreate 1 { name := "Alpha".toList }] ∧
      (templateRowOfCreate 1 { name := "Alpha".toList }).default_title
        = (templateRowOfCreate 1 { name := "Alpha".toList }).course_title) ∧
    (∀ r ∈ (update_course_template [w9row] 1
        { course_title := some "T2".toList }).1,
      r.id = 1 → r.default_title = r.course_title) := by
  refine ⟨template_writes_sync_default_title.1 [] 1 _, ?_⟩
  exact template_writes_sync_default_title.2 [w9row] _ 1
    { course_title := some "T2".toList } _ rfl

/-- Witness for `userUpdate_full_name_policy`: updating only the surname to
`Smith` on `Jane Doe` yields the full name `Jane Smith`. -/
theorem userUpdate_full_name_policy_witness :
    (mergeUser w5user { surname := some "Smith".toList }).full_name
      = "Jane Smith".toList := by
  have h := (userUpdate_full_name_policy w5user
    { surname := some "Smith".toList }).1 (by decide) (by decide)
  rw [h]
  decide

/-- Witness for `capacity_default_amended` on the zero-default template. -/
theorem capacity_default_amended_witness :
    (w3db.templates.find? (fun t => t.id == w3p.template_id) = some w3tmpl) ∧
    ∃ row : CourseRow,
      (create_course w3db 1 w3p).1.courses = w3db.courses ++ [row] ∧
      row.capacity = specCapacityAmended w3p.capacity w3tmpl.default_capacity :=
  ⟨rfl, capacity_default_amended w3db 1 w3p w3tmpl rfl⟩

/-- Witness for `courseRef_format` at concrete cohorts, a concrete
creation, and a ref set with no entry for the target year. -/
theorem courseRef_format_witness :
    ((1 : Int) ≤ 5 ∧ (5 : Int) ≤ 999 ∧ (fmt03 5).length = 3) ∧
    ((999 : Int) < 1234 ∧ fmt03 1234 = intToStr 1234 ∧ 4 ≤ (fmt03 1234).length) ∧
    (w7db.templates.find? (fun t => t.id == w7p.template_id) = some w7tmpl ∧
      ∃ row : CourseRow,
        (create_course w7db 2 w7p).1.courses = w7db.courses ++ [row] ∧
        row.course_ref =
          _get_template_shortname w7tmpl.name ++ '-' :: strftimeY w7p.course_date
            ++ '-' :: fmt03 (_get_next_cohort_number
                ((w7db.courses.filter fun c => c.template_id == w7p.template_id).map
                  fun c => c.course_ref)
                (strftimeY w7p.course_date))) ∧
    ((∀ r ∈ ["A-2023-001".toList], ¬likeYearPattern "2024".toList <:+: r) ∧
      _get_next_cohort_number ["A-2023-001".toList] "2024".toList = 1) := by
  refine ⟨⟨by decide, by decide, courseRef_format.2.1 5 (by decide) (by decide)⟩,
    ⟨by decide, courseRef_format.2.2.1 1234 (by decide)⟩,
    ⟨rfl, courseRef_format.2.2.2.1 w7db 2 w7p w7tmpl rfl⟩,
    ⟨by decide, courseRef_format.2.2.2.2.1 _ _ (by decide)⟩⟩

/-- Witness for `notFound_404_no_write` on empty tables. -/
theorem notFound_404_no_write_witness :
    (w8db.templates.find? (fun t => t.id == w8p.template_id) = none ∧
      create_course w8db 1 w8p = (w8db, .error 404)) ∧
    (([] : List TemplateRow).find? (fun r => r.id == 1) = none ∧
      update_course_template [] 1 { name := some "A".toList } = ([], .error 404)) ∧
    (([] : List UserRow).find? (fun r => r.id == 1) = none ∧
      update_user [] 1 { role := some "staff".toList } = ([], .error 404)) ∧
    (([] : List ParticipantRow).find? (fun r => r.id == 1) = none ∧
      update_participant [] 1 { notes := some "n".toList } = ([], .error 404)) :=
  ⟨⟨rfl, notFound_404_no_write.1 w8db 1 w8p rfl⟩,
    ⟨rfl, notFound_404_no_write.2.1 [] 1 _ rfl⟩,
    ⟨rfl, notFound_404_no_write.2.2.1 [] 1 _ rfl⟩,
    ⟨rfl, notFound_404_no_write.2.2.2 [] 1 _ rfl⟩⟩

/-- Witness for `createCourse_ignores_template_defaults`: even when the
template names a default trainer and venue, the stored row carries the
payload's trainer and venue. -/
theorem createCourse_ignores_template_defaults_witness :
    (w10db.templates.find? (fun t => t.id == w10p.template_id) = some w10tmpl) ∧
    ∃ row : CourseRow,
      (create_course w10db 2 w10p).1.courses = w10db.courses ++ [row] ∧
      row.trainer = w10p.trainer ∧ row.venue_id = w10p.venue_id :=
  ⟨rfl, createCourse_ignores_template_defaults.1 w10db 2 w10p w10tmpl rfl⟩

end Trainstream
